import Mathlib

/-!
Verification of the neighbor-mapper discovery engine: shallow embedding of
`app/parsers.py`, `app/device_detector.py` and `app/discovery.py`, together
with theorems settling the specification claims about them.
-/

namespace NeighborMapper

/-! ## Python string primitives

Each helper mirrors one Python `str` operation as used by the source. They
are implemented over `List Char` (structural recursion) so that closed
evaluations reduce in the kernel. -/

/-- If `p` is a prefix of `l`, return the remainder. -/
def dropPrefixC : List Char → List Char → Option (List Char)
  | l, [] => some l
  | [], _ :: _ => none
  | c :: cs, p :: ps => if c = p then dropPrefixC cs ps else none

/-- Fuel-driven worker for splitting on a separator; the fuel is the length
of the string, which suffices for a non-empty separator. -/
def splitOnC : Nat → List Char → List Char → List Char → List (List Char)
  | _, [], _, acc => [acc.reverse]
  | 0, l, _, acc => [acc.reverse ++ l]
  | fuel + 1, c :: cs, sep, acc =>
    match dropPrefixC (c :: cs) sep with
    | some rest => acc.reverse :: splitOnC fuel rest sep []
    | none => splitOnC fuel cs sep (c :: acc)

/-- Python `s.split(sep)` for a non-empty separator. -/
def pySplit (s sep : String) : List String :=
  if sep.data = [] then [s]
  else (splitOnC s.data.length s.data sep.data []).map String.mk

/-- Python `sub in s` substring test. -/
def containsSub (s sub : String) : Bool := (pySplit s sub).length > 1

/-- Python `s.startswith(p)`. -/
def pyStartsWith (s p : String) : Bool := (dropPrefixC s.data p.data).isSome

/-- Whitespace test used by `strip()` and `split()`. -/
def pyIsSpace (c : Char) : Bool := c = ' ' || c = '\t' || c = '\n' || c = '\r'

/-- Python `s.strip()`. -/
def pyStrip (s : String) : String :=
  String.mk (((s.data.dropWhile pyIsSpace).reverse.dropWhile pyIsSpace).reverse)

/-- Python `s.split()`: split on whitespace runs, dropping empty fields. -/
def pySplitWs (s : String) : List String :=
  ((s.data.splitOnP pyIsSpace).map String.mk).filter (fun t => t ≠ "")

/-- Python `s.splitlines()` for `\n`-separated text. -/
def pySplitlines (s : String) : List String := pySplit s "\n"

/-- Python `s.rstrip("#>")`: drop trailing `#` and `>` characters. -/
def pyRstripPrompt (s : String) : String :=
  String.mk ((s.data.reverse.dropWhile (fun c => c = '#' || c = '>')).reverse)

/-- Python `s.upper()` (ASCII data). -/
def pyUpper (s : String) : String := String.mk (s.data.map Char.toUpper)

/-- Python `s.lower()` (ASCII data). -/
def pyLower (s : String) : String := String.mk (s.data.map Char.toLower)

/-- Python `s.replace(pat, rep)` for a non-empty pattern. -/
def pyReplace (s pat rep : String) : String :=
  String.mk (List.intercalate rep.data ((pySplit s pat).map String.data))

/-- Python `sep.join(l)`. -/
def pyJoin (sep : String) (l : List String) : String :=
  String.mk (List.intercalate sep.data (l.map String.data))

/-- Python truthiness of an optional string (absent or empty is falsy). -/
def pyTruthy : Option String → Bool
  | some s => s ≠ ""
  | none => false

/-! ## Neighbor records (the parser/merger dictionaries)

A Python dict with the fixed key set used by `parsers.py`; `none` models an
absent key, `some ""` a key present with an empty value. -/

structure NeighborRecord where
  remote_device : Option String := none
  remote_ip : Option String := none
  remote_platform : Option String := none
  remote_capabilities : Option String := none
  system_description : Option String := none
  local_intf : Option String := none
  remote_intf : Option String := none
  protocols : List String := []
deriving DecidableEq

/-- The empty dict `{}` of the parsers' accumulator. -/
def emptyRecord : NeighborRecord := {}

/-! ## CDP parser (`parsers.parse_cdp_neighbors_detail`) -/

/-- One iteration of the CDP parser's line loop, carrying
(flushed neighbors, current accumulator). -/
def parseCdpLine (acc : List NeighborRecord × NeighborRecord) (line : String) :
    List NeighborRecord × NeighborRecord :=
  let neighbors := acc.1
  let current := acc.2
  let ls := pyStrip line
  if pyStartsWith ls "Device ID:" then
    let neighbors := if current ≠ emptyRecord then neighbors ++ [current] else neighbors
    let current := emptyRecord
    let device_id := pyStrip ((pySplit ls "Device ID:").getD 1 "")
    (neighbors, { current with remote_device := some ((pySplit device_id ".").headD "") })
  else if containsSub ls "IP address:" || containsSub ls "IPv4 Address:" then
    let ip :=
      if containsSub ls "IPv4 Address:" then pyStrip ((pySplit ls "IPv4 Address:").getD 1 "")
      else pyStrip ((pySplit ls "IP address:").getD 1 "")
    if ip ≠ "" && !(pyStartsWith ip "(") then
      (neighbors, { current with remote_ip := some ip })
    else (neighbors, current)
  else if pyStartsWith ls "Platform:" then
    let parts := pySplit ls ","
    let platform := pyStrip ((pySplit (parts.headD "") "Platform:").getD 1 "")
    let current := { current with remote_platform := some platform }
    let current := parts.foldl (fun c part =>
      if containsSub part "Capabilities:" then
        { c with remote_capabilities := some (pyStrip ((pySplit part "Capabilities:").getD 1 "")) }
      else c) current
    (neighbors, current)
  else if pyStartsWith ls "Interface:" then
    let parts := pySplit ls ","
    let local_intf := pyStrip ((pySplit (parts.headD "") "Interface:").getD 1 "")
    let current := { current with local_intf := some local_intf }
    if parts.length > 1 && containsSub (parts.getD 1 "") "Port ID" then
      (neighbors,
        { current with remote_intf := some (pyStrip ((pySplit (parts.getD 1 "") ":").getLastD "")) })
    else (neighbors, current)
  else (neighbors, current)

/-- Embedding of `parse_cdp_neighbors_detail`. -/
def parse_cdp_neighbors_detail (output : String) : List NeighborRecord :=
  let res := (pySplitlines output).foldl parseCdpLine ([], emptyRecord)
  if res.2 ≠ emptyRecord then res.1 ++ [res.2] else res.1

/-! ## LLDP parser (`parsers.parse_lldp_neighbors_detail`) -/

/-- Loop state of the LLDP parser: flushed neighbors, the current
accumulator, and the `in_mgmt_addresses` flag. -/
structure LldpState where
  neighbors : List NeighborRecord
  current : NeighborRecord
  in_mgmt : Bool
deriving DecidableEq

/-- One iteration of the LLDP parser's line loop (the `elif` chain of
`parse_lldp_neighbors_detail`, in source order). -/
def parseLldpLine (st : LldpState) (line : String) : LldpState :=
  let ls := pyStrip line
  if pyStartsWith ls "Chassis id:" then
    let neighbors :=
      if st.current ≠ emptyRecord then st.neighbors ++ [st.current] else st.neighbors
    { neighbors := neighbors,
      current := { emptyRecord with remote_platform := some (pyStrip ((pySplit ls "Chassis id:").getD 1 "")) },
      in_mgmt := false }
  else if pyStartsWith ls "System Name:" then
    let name := pyStrip ((pySplit ls "System Name:").getD 1 "")
    { st with current := { st.current with remote_device := some ((pySplit name ".").headD "") },
              in_mgmt := false }
  else if pyStartsWith ls "Port id:" then
    { st with current := { st.current with remote_intf := some (pyStrip ((pySplit ls "Port id:").getD 1 "")) },
              in_mgmt := false }
  else if pyStartsWith ls "Local Port id:" then
    { st with current := { st.current with local_intf := some (pyStrip ((pySplit ls "Local Port id:").getD 1 "")) },
              in_mgmt := false }
  else if pyStartsWith ls "System Description:" then
    { st with current := { st.current with system_description := some "" }, in_mgmt := false }
  else if st.current.system_description ≠ none && ls ≠ "" &&
      !(pyStartsWith ls "Time remaining") && !(pyStartsWith ls "System Capabilities") &&
      !(pyStartsWith ls "Enabled Capabilities") && !(pyStartsWith ls "Management") then
    let desc := st.current.system_description.getD ""
    let desc := if desc ≠ "" then desc ++ " " ++ ls else ls
    { st with current := { st.current with system_description := some desc } }
  else if pyStartsWith ls "System Capabilities:" then
    { st with current := { st.current with remote_capabilities := some (pyStrip ((pySplit ls "System Capabilities:").getD 1 "")) },
              in_mgmt := false }
  else if pyStartsWith ls "Management Addresses:" || pyStartsWith ls "Management Address:" then
    { st with in_mgmt := true }
  else if st.in_mgmt && pyStartsWith ls "IP:" then
    let ip_addr := pyStrip ((pySplit ls "IP:").getD 1 "")
    if ip_addr ≠ "" then
      { st with current := { st.current with remote_ip := some ip_addr } }
    else st
  else if ls ≠ "" && st.in_mgmt then
    if !(["IP", "IPv4", "IPv6", "Other"].any (fun x => pyStartsWith ls x)) then
      { st with in_mgmt := false }
    else st
  else st

/-- Embedding of `parse_lldp_neighbors_detail`. -/
def parse_lldp_neighbors_detail (output : String) : List NeighborRecord :=
  let st := (pySplitlines output).foldl parseLldpLine
    { neighbors := [], current := emptyRecord, in_mgmt := false }
  if st.current ≠ emptyRecord then st.neighbors ++ [st.current] else st.neighbors

/-! ## Neighbor merger (`parsers.merge_neighbor_info`) -/

/-- Merge key of a record: `get('remote_device','') or get('remote_ip','')`. -/
def recKey (n : NeighborRecord) : String :=
  let d := n.remote_device.getD ""
  if d ≠ "" then d else n.remote_ip.getD ""

/-- Insertion-ordered dict assignment `m[k] = v`: replaces in place when the
key exists, appends otherwise. -/
def dictInsert {κ α : Type} [DecidableEq κ] (m : List (κ × α)) (k : κ) (v : α) :
    List (κ × α) :=
  if m.any (fun p => p.1 = k) then
    m.map (fun p => if p.1 = k then (k, v) else p)
  else m ++ [(k, v)]

/-- Dict lookup `m.get(k)`. -/
def dictLookup {κ α : Type} [DecidableEq κ] (m : List (κ × α)) (k : κ) : Option α :=
  (m.find? (fun p => p.1 = k)).map (fun p => p.2)

/-- Backfill of one absent field: keep the existing value when the key is
present, otherwise take the LLDP record's value. -/
def backfill (ex new : Option String) : Option String :=
  match ex with
  | some v => some v
  | none => new

/-- The in-place merge of an LLDP record into an existing entry: backfill
absent remote-IP/remote-interface/local-interface fields, append the LLDP
protocol tag, and overwrite the description when LLDP supplies a non-empty
one. -/
def lldpMergeRecord (ex n : NeighborRecord) : NeighborRecord :=
  let ex := { ex with remote_ip := backfill ex.remote_ip n.remote_ip }
  let ex := { ex with remote_intf := backfill ex.remote_intf n.remote_intf }
  let ex := { ex with local_intf := backfill ex.local_intf n.local_intf }
  let ex := { ex with protocols := ex.protocols ++ ["LLDP"] }
  if pyTruthy n.system_description then
    { ex with system_description := n.system_description }
  else ex

/-- CDP phase step: `if key: merged[key] = neighbor; merged[key]['protocols'] = ['CDP']`. -/
def cdpInsert (m : List (String × NeighborRecord)) (n : NeighborRecord) :
    List (String × NeighborRecord) :=
  let key := recKey n
  if key ≠ "" then dictInsert m key { n with protocols := ["CDP"] } else m

/-- LLDP phase step of `merge_neighbor_info`. -/
def lldpInsert (m : List (String × NeighborRecord)) (n : NeighborRecord) :
    List (String × NeighborRecord) :=
  let key := recKey n
  if key = "" then m
  else
    match dictLookup m key with
    | some ex => dictInsert m key (lldpMergeRecord ex n)
    | none => dictInsert m key { n with protocols := ["LLDP"] }

/-- The insertion-ordered `merged` dict of `merge_neighbor_info`. -/
def merge_map (cdp lldp : List NeighborRecord) : List (String × NeighborRecord) :=
  lldp.foldl lldpInsert (cdp.foldl cdpInsert [])

/-- Embedding of `merge_neighbor_info`: `list(merged.values())`. -/
def merge_neighbor_info (cdp lldp : List NeighborRecord) : List NeighborRecord :=
  (merge_map cdp lldp).map (fun p => p.2)

/-! ## Device type detector (`device_detector.DeviceTypeDetector`) -/

/-- One configured device-type profile (an entry of `device_types` in the
YAML configuration). -/
structure Profile where
  name : String
  platforms : List String
  system_descriptions : List String
  priority : ℚ
deriving DecidableEq

/-- The detector's loaded configuration: the ordered profile list, the
`allowed_capabilities` list and the `default_device_type`. -/
structure Detector where
  device_types : List Profile
  allowed_capabilities : List String
  default_type : String
deriving DecidableEq

/-- The per-request filter dict; `none` models an absent key, so the
source's differing `get` defaults stay visible. -/
structure Filters where
  include_routers : Option Bool := none
  include_switches : Option Bool := none
  include_phones : Option Bool := none
  include_servers : Option Bool := none
  include_aps : Option Bool := none
  include_other : Option Bool := none
deriving DecidableEq

/-- Embedding of `DeviceTypeDetector._categorize_device` (capability tokens
are already upper-cased). -/
def categorize_device (caps : List String) : String :=
  if ["WLAN", "W", "AP"].any (fun c => caps.contains c) then "ap"
  else if caps.contains "TRANS-BRIDGE" then "ap"
  else if ["ROUTER", "R"].any (fun c => caps.contains c) then "router"
  else if ["SWITCH", "S", "BRIDGE", "B"].any (fun c => caps.contains c) then "switch"
  else if ["PHONE", "P", "T"].any (fun c => caps.contains c) then "phone"
  else if ["HOST", "H", "STATION"].any (fun c => caps.contains c) then "server"
  else "other"

/-- The tokenization `set(capabilities.replace(',', ' ').upper().split())`,
kept as a list whose membership is the set membership. -/
def capTokens (capabilities : String) : List String :=
  pySplitWs (pyUpper (pyReplace capabilities "," " "))

/-- Embedding of `DeviceTypeDetector._should_crawl`. -/
def should_crawl (d : Detector) (capabilities : String) (filters : Option Filters) : Bool :=
  if capabilities = "" then
    match filters with
    | none => true
    | some f => (f.include_routers.getD true) || (f.include_switches.getD true)
  else
    let caps := capTokens capabilities
    match filters with
    | none => (d.allowed_capabilities.map pyUpper).any (fun c => caps.contains c)
    | some f =>
      let cat := categorize_device caps
      if cat = "router" then f.include_routers.getD false
      else if cat = "switch" then f.include_switches.getD false
      else if cat = "phone" then f.include_phones.getD false
      else if cat = "server" then f.include_servers.getD false
      else if cat = "ap" then f.include_aps.getD false
      else f.include_other.getD false

/-- Score of one profile in `_match_patterns`: the full priority when some
platform substring occurs (the source breaks after the first hit), plus
half the priority when some description substring occurs. -/
def profileScore (platform_lower desc_lower : String) (p : Profile) : ℚ :=
  (if p.platforms.any (fun pat => containsSub platform_lower (pyLower pat)) then p.priority else 0)
  + (if p.system_descriptions.any (fun pat => containsSub desc_lower (pyLower pat)) then
      p.priority * (1 / 2) else 0)

/-- Embedding of `DeviceTypeDetector._match_patterns`. The final fold keeps
the earliest entry with the maximal score, which is the head of the
source's stable descending sort of `matches`. -/
def match_patterns (d : Detector) (platform system_desc : String) : String :=
  let pl := pyLower platform
  let dl := pyLower system_desc
  let matchList := d.device_types.foldl (fun acc p =>
    let score := profileScore pl dl p
    if score > 0 then acc ++ [(p.name, score)] else acc) []
  match matchList.foldl (fun best m =>
      match best with
      | none => some m
      | some b => if m.2 > b.2 then some m else some b) none with
  | some b => b.1
  | none => d.default_type

/-- Embedding of `DeviceTypeDetector.detect_from_cdp`. -/
def detect_from_cdp (d : Detector) (platform capabilities : String)
    (filters : Option Filters) : Option String :=
  if !(should_crawl d capabilities filters) then none
  else some (match_patterns d platform "")

/-- Embedding of `DeviceTypeDetector.detect_from_lldp`. -/
def detect_from_lldp (d : Detector) (system_desc capabilities : String)
    (filters : Option Filters) : Option String :=
  if !(should_crawl d capabilities filters) then none
  else some (match_patterns d "" system_desc)

/-! ## Topology model (`discovery.Device`, `discovery.Link`,
`discovery.Topology`) -/

structure Link where
  local_device : String
  local_intf : String
  remote_device : String
  remote_intf : String
  remote_ip : Option String := none
  protocols : List String := []
deriving DecidableEq

structure Device where
  hostname : String
  mgmt_ip : Option String := none
  device_type : Option String := none
  platform : Option String := none
  links : List Link := []
deriving DecidableEq

/-- The topology: an insertion-ordered map from hostname to `Device`. -/
structure Topology where
  devices : List (String × Device) := []
deriving DecidableEq

/-- Embedding of `Topology.add_device`: creates the entry only when the
hostname is not yet present. -/
def Topology.add_device (t : Topology) (hostname : String)
    (mgmt_ip device_type platform : Option String) : Topology :=
  if (dictLookup t.devices hostname).isSome then t
  else
    { devices := t.devices ++
        [(hostname,
          { hostname := hostname, mgmt_ip := mgmt_ip, device_type := device_type,
            platform := platform, links := [] })] }

/-- Embedding of `Topology.add_link`: auto-creates both endpoints (the
remote one seeded with the link's remote IP) and appends the link to the
local device's list. -/
def Topology.add_link (t : Topology) (link : Link) : Topology :=
  let devices :=
    if (dictLookup t.devices link.local_device).isSome then t.devices
    else t.devices ++ [(link.local_device, { hostname := link.local_device })]
  let devices :=
    if (dictLookup devices link.remote_device).isSome then devices
    else devices ++
      [(link.remote_device, { hostname := link.remote_device, mgmt_ip := link.remote_ip })]
  let devices := devices.map (fun p =>
    if p.1 = link.local_device then (p.1, { p.2 with links := p.2.links ++ [link] }) else p)
  { devices := devices }

/-! ## Discoverer (`discovery.TopologyDiscoverer`)

The transport collaborator is an environment mapping an address and a
device-type hint to either a `DiscoveryError` (as raised by `_connect`) or
an open session carrying the prompt and the raw output (or failure) of each
of the two discovery commands. -/

/-- The per-node error of `_connect` (`DiscoveryError` in the source). -/
structure DiscoveryError where
  message : String
  error_type : String
deriving DecidableEq

deriving instance DecidableEq for Except

/-- A connected session: the device prompt plus the result of each of the
two `send_command` calls. -/
structure Session where
  prompt : String
  cdp : Except Unit String
  lldp : Except Unit String
deriving DecidableEq

/-- The transport collaborator of the crawl. -/
def Env : Type := String → String → Except DiscoveryError Session

/-- Embedding of `TopologyDiscoverer._get_hostname`. -/
def get_hostname (prompt : String) : String := pyStrip (pyRstripPrompt prompt)

/-- Embedding of `TopologyDiscoverer._discover_neighbors`: each protocol
failure independently yields an empty list, then the two lists are merged. -/
def discover_neighbors (s : Session) : List NeighborRecord :=
  let cdp := match s.cdp with
    | Except.ok out => parse_cdp_neighbors_detail out
    | Except.error _ => []
  let lldp := match s.lldp with
    | Except.ok out => parse_lldp_neighbors_detail out
    | Except.error _ => []
  merge_neighbor_info cdp lldp

/-- Embedding of `TopologyDiscoverer._detect_neighbor_type`: both detector
calls pass no filters (Python default `None`); a falsy (empty) device type
falls through to the next source. -/
def detect_neighbor_type (d : Detector) (nbr : NeighborRecord) : Option String :=
  let platform := nbr.remote_platform.getD ""
  let capabilities := nbr.remote_capabilities.getD ""
  let system_desc := nbr.system_description.getD ""
  let fromCdp :=
    if platform ≠ "" then
      match detect_from_cdp d platform capabilities none with
      | some dt => if dt ≠ "" then some dt else none
      | none => none
    else none
  match fromCdp with
  | some dt => some dt
  | none =>
    if system_desc ≠ "" then
      match detect_from_lldp d system_desc capabilities none with
      | some dt => if dt ≠ "" then some dt else none
      | none => none
    else none

/-- The per-neighbor body of the crawl loop: record the link in the
topology and, when the neighbor is classified and carries an unvisited
management IP, extend the frontier additions. -/
def processNeighbor (det : Detector) (hostname : String) (depth : Nat)
    (visited : List String) (acc : Topology × List (String × String × Nat))
    (nbr : NeighborRecord) : Topology × List (String × String × Nat) :=
  let link : Link :=
    { local_device := hostname,
      local_intf := nbr.local_intf.getD "?",
      remote_device := nbr.remote_device.getD "Unknown",
      remote_intf := nbr.remote_intf.getD "?",
      remote_ip := nbr.remote_ip,
      protocols := nbr.protocols }
  let topo := acc.1.add_link link
  let ndt := detect_neighbor_type det nbr
  if pyTruthy ndt && pyTruthy nbr.remote_ip && !(visited.contains (nbr.remote_ip.getD "")) then
    (topo, acc.2 ++ [(nbr.remote_ip.getD "", ndt.getD "", depth + 1)])
  else (topo, acc.2)

/-- The crawl loop's state.  `dequeued` and `polled` are observation logs:
`dequeued` records every entry popped from the frontier, `polled` every
address for which a connection was attempted (the addresses that passed the
visited/depth gate). -/
structure CrawlState where
  queue : List (String × String × Nat)
  visited : List String
  topology : Topology
  dequeued : List (String × Nat)
  polled : List String
deriving DecidableEq

/-- One iteration of the `while queue:` loop of `TopologyDiscoverer.discover`. -/
def crawlStep (env : Env) (det : Detector) (maxDepth : Nat) (st : CrawlState) : CrawlState :=
  match st.queue with
  | [] => st
  | (ip, device_type, depth) :: rest =>
    let st0 := { st with queue := rest, dequeued := st.dequeued ++ [(ip, depth)] }
    if ip ∈ st.visited || depth > maxDepth then st0
    else
      let visited := st.visited ++ [ip]
      let st1 := { st0 with visited := visited, polled := st.polled ++ [ip] }
      match env ip device_type with
      | Except.error _ => st1
      | Except.ok sess =>
        let hostname := get_hostname sess.prompt
        let topo := st1.topology.add_device hostname (some ip) (some device_type) none
        let neighbors := discover_neighbors sess
        let res := neighbors.foldl (processNeighbor det hostname depth visited) (topo, [])
        { st1 with topology := res.1, queue := st1.queue ++ res.2 }

/-- Fuel-indexed iteration of the crawl loop; with any sufficiently large
fuel this is the whole `while queue:` loop, and smaller fuels expose every
intermediate point of the crawl. -/
def crawl (env : Env) (det : Detector) (maxDepth : Nat) : Nat → CrawlState → CrawlState
  | 0, st => st
  | fuel + 1, st =>
    match st.queue with
    | [] => st
    | _ :: _ => crawl env det maxDepth fuel (crawlStep env det maxDepth st)

/-- The initial crawl state seeded with `(seed_ip, seed_device_type, 0)`. -/
def initState (seed_ip seed_device_type : String) : CrawlState :=
  { queue := [(seed_ip, seed_device_type, 0)], visited := [], topology := {},
    dequeued := [], polled := [] }

/-- Embedding of `TopologyDiscoverer.discover`.  Both exception handlers in
the loop body catch every per-node error and `continue`, so no exception
escapes the loop and the function always returns its topology normally;
the `Except` result type records that the caller can observe no failure. -/
def discover (env : Env) (det : Detector) (maxDepth : Nat)
    (seed_ip seed_device_type : String) (fuel : Nat) : Except DiscoveryError Topology :=
  Except.ok (crawl env det maxDepth fuel (initState seed_ip seed_device_type)).topology

/-! ## Tree renderer (`discovery.render_topology_tree`) -/

/-- The per-directed-edge display dict stored in `link_details`. -/
structure LinkInfo where
  local_intf : String
  remote_intf : String
  remote_ip : Option String
  protocols : List String
deriving DecidableEq

/-- `adjacency.setdefault(k, set())`. -/
def adjSetdefault (m : List (String × List String)) (k : String) :
    List (String × List String) :=
  if (dictLookup m k).isSome then m else m ++ [(k, [])]

/-- `adjacency[k].add(v)` (the neighbor set is a duplicate-free list). -/
def adjAddEdge (m : List (String × List String)) (k v : String) :
    List (String × List String) :=
  m.map (fun p =>
    if p.1 = k then (p.1, if p.2.contains v then p.2 else p.2 ++ [v]) else p)

/-- The adjacency/`link_details` construction pass of `render_topology_tree`:
every link contributes both undirected adjacency directions but only the
directed `(local, remote)` details key. -/
def buildAdjacency (t : Topology) :
    List (String × List String) × List ((String × String) × LinkInfo) :=
  t.devices.foldl (fun acc p =>
    let device := p.2
    let adjacency := adjSetdefault acc.1 device.hostname
    device.links.foldl (fun acc2 link =>
      let adjacency := adjAddEdge acc2.1 link.local_device link.remote_device
      let adjacency := adjAddEdge (adjSetdefault adjacency link.remote_device)
        link.remote_device link.local_device
      let details := dictInsert acc2.2 (link.local_device, link.remote_device)
        { local_intf := link.local_intf, remote_intf := link.remote_intf,
          remote_ip := link.remote_ip, protocols := link.protocols }
      (adjacency, details)) (adjacency, acc.2)) ([], [])

/-- Lexicographic insertion of a string into a sorted list. -/
def insertSorted (a : String) : List String → List String
  | [] => [a]
  | b :: bs => if b < a then b :: insertSorted a bs else a :: b :: bs

/-- Python `sorted` on a set of strings. -/
def sortStrings (l : List String) : List String := l.foldr insertSorted []

/-- The connection line built inside `build_tree` for one neighbor, from
the (possibly absent) directed link details. -/
def connectionLine (pref : String) (is_last is_last_neighbor : Bool)
    (info : Option LinkInfo) : String :=
  let local_intf := match info with | some i => i.local_intf | none => "?"
  let remote_intf := match info with | some i => i.remote_intf | none => "?"
  let remote_ip := match info with | some i => i.remote_ip.getD "" | none => ""
  let protocols := pyJoin "+" (match info with | some i => i.protocols | none => [])
  let connector := if is_last_neighbor then "└─" else "├─"
  let protocol_label := if protocols ≠ "" then "[" ++ protocols ++ "]" else ""
  let line := pref ++ (if is_last then "   " else "│  ") ++ connector ++ protocol_label
    ++ " " ++ local_intf ++ " ↔ " ++ remote_intf
  if remote_ip ≠ "" then line ++ " (" ++ remote_ip ++ ")" else line

/-- The recursive `build_tree` closure; the accumulator carries the `lines`
list and the mutable `visited` set, and the fuel bounds the recursion
depth (any bound at least the recursion's actual depth gives the source's
behaviour). -/
def buildTree (t : Topology) (adjacency : List (String × List String))
    (details : List ((String × String) × LinkInfo)) :
    Nat → String → String → Bool → List String × List String → List String × List String
  | 0, _, _, _, acc => acc
  | fuel + 1, node, pref, is_last, acc =>
    let visited := if acc.2.contains node then acc.2 else acc.2 ++ [node]
    let device_label :=
      match dictLookup t.devices node with
      | some d => if pyTruthy d.mgmt_ip then node ++ " (" ++ d.mgmt_ip.getD "" ++ ")" else node
      | none => node
    let lines := acc.1 ++ [pref ++ device_label]
    let nbrs := sortStrings (((dictLookup adjacency node).getD []).filter
      (fun x => !(visited.contains x)))
    nbrs.enum.foldl (fun acc2 p =>
      let i := p.1
      let nbr := p.2
      let is_last_neighbor := i = nbrs.length - 1
      let info := dictLookup details (node, nbr)
      let lines2 := acc2.1 ++ [connectionLine pref is_last is_last_neighbor info]
      let new_pref := pref ++ (if is_last then "   " else "│  ")
        ++ (if is_last_neighbor then "   " else "│  ")
      buildTree t adjacency details fuel nbr new_pref is_last_neighbor (lines2, acc2.2))
      (lines, visited)

/-- Embedding of `render_topology_tree`.  The fuel passed to `build_tree`
is a bound on the recursion depth, ample for every topology the claims
evaluate. -/
def render_topology_tree (t : Topology) (root : Option String) : String :=
  if t.devices = [] then "No devices discovered"
  else
    let ad := buildAdjacency t
    let rootName :=
      match root with
      | some r => r
      | none => ((ad.1.headD ("", [])).1)
    let res := buildTree t ad.1 ad.2
      ((t.devices.length + 1) * (t.devices.length + 1)) rootName "" true ([], [])
    pyJoin "\n" res.1

/-! ## Specification-side definitions used for refinement comparison -/

/-- The classifier selection as the specification words it: score every
profile (full priority weight for a platform-substring hit, half the
weight for a description hit), keep only the positive scores, and return
the first-declared profile whose score is at least every other qualifying
profile's score; with no qualifying profile, the configured default id. -/
def match_patterns_spec (d : Detector) (platform system_desc : String) : String :=
  let pl := pyLower platform
  let dl := pyLower system_desc
  let qualifying := (d.device_types.map (fun p => (p.name, profileScore pl dl p))).filter
    (fun q => q.2 > 0)
  match qualifying.find? (fun q => decide (∀ r ∈ qualifying, r.2 ≤ q.2)) with
  | some q => q.1
  | none => d.default_type

/-- The keys of the merge dict, in insertion order. -/
def keysOf (m : List (String × NeighborRecord)) : List String := m.map (fun p => p.1)

/-- Equality of the three identifying fields of a device entry (its link
list may differ). -/
def FieldsEq (da db : Device) : Prop :=
  da.mgmt_ip = db.mgmt_ip ∧ da.device_type = db.device_type ∧ da.platform = db.platform

/-- The crawl invariant behind claim C4: no address is polled twice, the
polled log is exactly the visited set in insertion order, and the visited
set is the set of addresses dequeued at an admissible depth. -/
def crawlInv (maxDepth : Nat) (st : CrawlState) : Prop :=
  st.visited.Nodup ∧ st.polled = st.visited ∧
    st.visited.toFinset =
      ((st.dequeued.filter (fun p => p.2 ≤ maxDepth)).map Prod.fst).toFinset

/-! ## Concrete fixtures for the claims' examples and counterexamples -/

/-- A detector with the default-pattern flavour of configuration: no
profiles, the stock allowed capabilities, and the stock default type. -/
def det1 : Detector :=
  { device_types := [], allowed_capabilities := ["Router", "Switch"],
    default_type := "cisco_ios" }

/-- Filters allowing routers but not switches (claim C5's example). -/
def filters5 : Filters :=
  { include_routers := some true, include_switches := some false }

/-- CDP output announcing one router neighbor `N2` at `2.2.2.2`. -/
def cdpText1 : String :=
  "Device ID: N2\nIP address: 2.2.2.2\nPlatform: foo, Capabilities: Router\nInterface: Gi0/1, Port ID (outgoing port): Gi0/2"

/-- CDP output announcing one host-capability neighbor `N2` at `2.2.2.2`
(not crawlable under the configured allowed capabilities). -/
def cdpText2 : String :=
  "Device ID: N2\nIP address: 2.2.2.2\nPlatform: foo, Capabilities: Host\nInterface: Gi0/1, Port ID (outgoing port): Gi0/2"

/-- Environment in which only the seed `1.1.1.1` is reachable and reports
the router neighbor of `cdpText1`. -/
def env1 : Env := fun ip _ =>
  if ip = "1.1.1.1" then
    Except.ok { prompt := "S1#", cdp := Except.ok cdpText1, lldp := Except.error () }
  else Except.error { message := "Connection timeout to " ++ ip, error_type := "timeout" }

/-- Environment in which only the seed `1.1.1.1` is reachable and reports
the non-crawlable neighbor of `cdpText2`. -/
def env2 : Env := fun ip _ =>
  if ip = "1.1.1.1" then
    Except.ok { prompt := "S1#", cdp := Except.ok cdpText2, lldp := Except.error () }
  else Except.error { message := "Connection timeout to " ++ ip, error_type := "timeout" }

/-- Environment in which every connection attempt times out. -/
def envFail : Env := fun ip _ =>
  Except.error { message := "Connection timeout to " ++ ip, error_type := "timeout" }

/-- Links of the 3-node chain A–B–C (claim C8). -/
def linkAB : Link :=
  { local_device := "A", local_intf := "Gi0/1", remote_device := "B",
    remote_intf := "Gi0/2", remote_ip := none, protocols := ["CDP"] }

def linkBC : Link :=
  { local_device := "B", local_intf := "Gi0/3", remote_device := "C",
    remote_intf := "Gi0/4", remote_ip := none, protocols := ["CDP"] }

/-- The 3-node chain topology A–B–C. -/
def chainTopo : Topology :=
  { devices := [("A", { hostname := "A", links := [linkAB] }),
                ("B", { hostname := "B", links := [linkBC] }),
                ("C", { hostname := "C" })] }

/-- A single link recorded only in the A→B direction, with full details. -/
def linkAB10 : Link :=
  { local_device := "A", local_intf := "Gi1", remote_device := "B",
    remote_intf := "Gi2", remote_ip := some "10.0.0.9", protocols := ["CDP"] }

/-- Two-device topology whose only link is directed A→B (claim C10). -/
def topo10 : Topology :=
  { devices := [("A", { hostname := "A", mgmt_ip := some "10.0.0.1", links := [linkAB10] }),
                ("B", { hostname := "B" })] }

/-- The protocol-A parser example block of claim C7. -/
def exampleCdpOutput : String :=
  "Device ID: DIST-SW-01\n  IP address: 192.168.1.10\nPlatform: cisco WS-C3750X-48, Capabilities: Router Switch IGMP\nInterface: GigabitEthernet1/0/1, Port ID (outgoing port): GigabitEthernet1/0/48"

/-- A CDP-side record (witness input for the merge law). -/
def recA : NeighborRecord :=
  { remote_device := some "X", remote_platform := some "plat", local_intf := some "Gi1" }

/-- An LLDP-side record with the same key as `recA`. -/
def recB : NeighborRecord :=
  { remote_device := some "X", remote_ip := some "9.9.9.9", remote_intf := some "p2",
    local_intf := some "other", system_description := some "descB" }

/-- A crawl state already holding one registered device (witness input for
the field-persistence theorem). -/
def devX : Device :=
  { hostname := "X", mgmt_ip := some "7.7.7.7", device_type := some "cisco_ios" }

def stW : CrawlState :=
  { queue := [("1.1.1.1", "cisco_ios", 0)], visited := [],
    topology := { devices := [("X", devX)] }, dequeued := [], polled := [] }

/-! ## Claim theorems -/

set_option maxRecDepth 40000 in
/-- C7: the protocol-A (CDP-style) parser, given one block with identity
"DIST-SW-01", IP-address line "192.168.1.10", platform line
"cisco WS-C3750X-48, Capabilities: Router Switch IGMP" and interface line
"GigabitEthernet1/0/1, Port ID (outgoing port): GigabitEthernet1/0/48",
yields exactly one record with exactly those six fields. -/
theorem c7_cdp_parser_example :
    parse_cdp_neighbors_detail exampleCdpOutput =
      [{ remote_device := some "DIST-SW-01", remote_ip := some "192.168.1.10",
         remote_platform := some "cisco WS-C3750X-48",
         remote_capabilities := some "Router Switch IGMP",
         local_intf := some "GigabitEthernet1/0/1",
         remote_intf := some "GigabitEthernet1/0/48" }] := by decide

set_option maxRecDepth 40000 in
/-- C8: rendering the 3-node chain A–B–C rooted at A produces a tree in
which B is A's sole child and C is B's sole child, and both connection
lines use the last-child connector glyph. -/
theorem c8_render_chain_example :
    render_topology_tree chainTopo (some "A") =
      "A\n   └─[CDP] Gi0/1 ↔ Gi0/2\n      B\n         └─[CDP] Gi0/3 ↔ Gi0/4\n            C" := by
  decide

set_option maxRecDepth 40000 in
/-- C4 (counterexample): dequeuing an entry whose depth exceeds the
maximum does not mark it visited, so after the full crawl of `env1` with
`max_depth = 0` the visited set has one element while two distinct
addresses were dequeued. -/
theorem c4_deep_dequeue_not_visited :
    (crawl env1 det1 0 3 (initState "1.1.1.1" "cisco_ios")).queue = []
    ∧ (crawl env1 det1 0 3 (initState "1.1.1.1" "cisco_ios")).visited = ["1.1.1.1"]
    ∧ (crawl env1 det1 0 3 (initState "1.1.1.1" "cisco_ios")).dequeued =
        [("1.1.1.1", 0), ("2.2.2.2", 1)]
    ∧ ((crawl env1 det1 0 3 (initState "1.1.1.1" "cisco_ios")).dequeued.map
        Prod.fst).dedup.length = 2 := by decide

set_option maxRecDepth 40000 in
/-- C2 (counterexample): after the crawl of `env2`, device `N2` was never
polled (its address is absent from the polled log) yet its topology entry
already carries the management IP taken from the link that referenced it,
and a management IP set this way is not accompanied by a device type. -/
theorem c2_endpoint_sets_mgmt_ip :
    dictLookup (crawl env2 det1 3 3 (initState "1.1.1.1" "cisco_ios")).topology.devices "N2"
      = some { hostname := "N2", mgmt_ip := some "2.2.2.2" }
    ∧ (crawl env2 det1 3 3 (initState "1.1.1.1" "cisco_ios")).polled = ["1.1.1.1"] := by
  decide

set_option maxRecDepth 40000 in
/-- C1 (counterexample): when the seed itself cannot be reached (the
environment raises a timeout `DiscoveryError` for it), `discover` does not
fail: it returns normally with an empty topology, surfacing nothing. -/
theorem c1_seed_failure_returns_ok :
    envFail "1.1.1.1" "cisco_ios" =
      Except.error { message := "Connection timeout to 1.1.1.1", error_type := "timeout" }
    ∧ discover envFail det1 3 "1.1.1.1" "cisco_ios" 2 = Except.ok { devices := [] } := by
  decide

/-- C3 (counterexample): `merge(X, [])` does not reproduce an `X` whose
record lacks both a device name and an IP — such a record is dropped, so
the merge of a single keyless record is empty rather than that record
tagged with the CDP protocol. -/
theorem c3_merge_drops_keyless_record :
    merge_neighbor_info [emptyRecord] [] = []
    ∧ [emptyRecord].map (fun r => { r with protocols := ["CDP"] }) ≠ [] := by decide

set_option maxRecDepth 40000 in
/-- C10: the renderer stores edge labels only under the directed
`(local, remote)` key, so when the traversal reaches an adjacency from the
remote endpoint's side of a one-direction link the lookup misses and the
connection line shows `?` for both interfaces with no protocol tag and no
remote IP — while the adjacency itself is still rendered, as the concrete
two-device run rooted at the remote endpoint shows. -/
theorem c10_reverse_direction_placeholder :
    (∀ (pref : String) (il iln : Bool),
        connectionLine pref il iln none =
          pref ++ (if il then "   " else "│  ") ++ (if iln then "└─" else "├─") ++ " ? ↔ ?")
    ∧ dictLookup (buildAdjacency topo10).2 ("B", "A") = none
    ∧ render_topology_tree topo10 (some "B") = "B\n   └─ ? ↔ ?\n      A (10.0.0.1)" := by
  refine ⟨?_, by decide, by decide⟩
  intro pref il iln
  obtain ⟨l⟩ := pref
  show String.mk _ = String.mk _
  cases il <;> cases iln <;> simp [String.instAppend, String.append]

/-- C5: the capability-category gate tests tokens against five mutually
exclusive priority-ordered categories with first match winning — access
point (including the vendor "TRANS-BRIDGE" token), then router, then
switch/bridge, then phone/telephone, then host/station, with "other" when
nothing matches; and on tokens {"Router","Switch"} with filters allowing
routers but not switches, the category is router and crawling is allowed. -/
theorem c5_capability_categories :
    (∀ caps : List String,
      ("WLAN" ∈ caps ∨ "W" ∈ caps ∨ "AP" ∈ caps ∨ "TRANS-BRIDGE" ∈ caps) →
        categorize_device caps = "ap")
    ∧ (∀ caps : List String,
      ¬("WLAN" ∈ caps ∨ "W" ∈ caps ∨ "AP" ∈ caps ∨ "TRANS-BRIDGE" ∈ caps) →
      ("ROUTER" ∈ caps ∨ "R" ∈ caps) → categorize_device caps = "router")
    ∧ (∀ caps : List String,
      ¬("WLAN" ∈ caps ∨ "W" ∈ caps ∨ "AP" ∈ caps ∨ "TRANS-BRIDGE" ∈ caps) →
      ¬("ROUTER" ∈ caps ∨ "R" ∈ caps) →
      ("SWITCH" ∈ caps ∨ "S" ∈ caps ∨ "BRIDGE" ∈ caps ∨ "B" ∈ caps) →
        categorize_device caps = "switch")
    ∧ (∀ caps : List String,
      ¬("WLAN" ∈ caps ∨ "W" ∈ caps ∨ "AP" ∈ caps ∨ "TRANS-BRIDGE" ∈ caps) →
      ¬("ROUTER" ∈ caps ∨ "R" ∈ caps) →
      ¬("SWITCH" ∈ caps ∨ "S" ∈ caps ∨ "BRIDGE" ∈ caps ∨ "B" ∈ caps) →
      ("PHONE" ∈ caps ∨ "P" ∈ caps ∨ "T" ∈ caps) → categorize_device caps = "phone")
    ∧ (∀ caps : List String,
      ¬("WLAN" ∈ caps ∨ "W" ∈ caps ∨ "AP" ∈ caps ∨ "TRANS-BRIDGE" ∈ caps) →
      ¬("ROUTER" ∈ caps ∨ "R" ∈ caps) →
      ¬("SWITCH" ∈ caps ∨ "S" ∈ caps ∨ "BRIDGE" ∈ caps ∨ "B" ∈ caps) →
      ¬("PHONE" ∈ caps ∨ "P" ∈ caps ∨ "T" ∈ caps) →
      ("HOST" ∈ caps ∨ "H" ∈ caps ∨ "STATION" ∈ caps) → categorize_device caps = "server")
    ∧ (∀ caps : List String,
      ¬("WLAN" ∈ caps ∨ "W" ∈ caps ∨ "AP" ∈ caps ∨ "TRANS-BRIDGE" ∈ caps) →
      ¬("ROUTER" ∈ caps ∨ "R" ∈ caps) →
      ¬("SWITCH" ∈ caps ∨ "S" ∈ caps ∨ "BRIDGE" ∈ caps ∨ "B" ∈ caps) →
      ¬("PHONE" ∈ caps ∨ "P" ∈ caps ∨ "T" ∈ caps) →
      ¬("HOST" ∈ caps ∨ "H" ∈ caps ∨ "STATION" ∈ caps) →
        categorize_device caps = "other")
    ∧ categorize_device (capTokens "Router Switch") = "router"
    ∧ should_crawl det1 "Router Switch" (some filters5) = true := by
  refine ⟨?_, ?_, ?_, ?_, ?_, ?_, by decide, by decide⟩
  · intro caps h
    simp only [categorize_device, List.any_cons, List.any_nil, Bool.or_false,
      Bool.or_eq_true, List.elem_iff]
    rcases h with h | h | h | h <;> simp [h]
  · intro caps hap h
    push_neg at hap
    simp only [categorize_device, List.any_cons, List.any_nil, Bool.or_false,
      Bool.or_eq_true, List.elem_iff]
    simp [hap.1, hap.2.1, hap.2.2.1, hap.2.2.2, h]
  · intro caps hap hr h
    push_neg at hap
    simp only [categorize_device, List.any_cons, List.any_nil, Bool.or_false,
      Bool.or_eq_true, List.elem_iff]
    simp [hap.1, hap.2.1, hap.2.2.1, hap.2.2.2, hr, h]
  · intro caps hap hr hs h
    push_neg at hap
    simp only [categorize_device, List.any_cons, List.any_nil, Bool.or_false,
      Bool.or_eq_true, List.elem_iff]
    simp [hap.1, hap.2.1, hap.2.2.1, hap.2.2.2, hr, hs, h]
  · intro caps hap hr hs hp h
    push_neg at hap
    simp only [categorize_device, List.any_cons, List.any_nil, Bool.or_false,
      Bool.or_eq_true, List.elem_iff]
    simp [hap.1, hap.2.1, hap.2.2.1, hap.2.2.2, hr, hs, hp, h]
  · intro caps hap hr hs hp hh
    push_neg at hap
    simp only [categorize_device, List.any_cons, List.any_nil, Bool.or_false,
      Bool.or_eq_true, List.elem_iff]
    simp [hap.1, hap.2.1, hap.2.2.1, hap.2.2.2, hr, hs, hp, hh]

/-- C5 witness: the gate at the concrete token set {"ROUTER","SWITCH"}. -/
theorem c5_capability_categories_witness :
    categorize_device ["ROUTER", "SWITCH"] = "router" :=
  c5_capability_categories.2.1 ["ROUTER", "SWITCH"] (by decide) (by decide)

/-- C9: the crawl's neighbor classification passes no filter set, so with
the `None` filters actually used a neighbor with a non-empty capability
string passes the gate iff its tokens intersect the configured allowed
capabilities, an empty capability string always passes, and whenever
`_detect_neighbor_type` yields a type the gate held for that neighbor's
capability string. -/
theorem c9_crawl_gate_ignores_filters :
    (∀ (d : Detector) (capabilities : String), capabilities ≠ "" →
      (should_crawl d capabilities none = true ↔
        ∃ c ∈ d.allowed_capabilities, pyUpper c ∈ capTokens capabilities))
    ∧ (∀ d : Detector, should_crawl d "" none = true)
    ∧ (∀ (d : Detector) (nbr : NeighborRecord), detect_neighbor_type d nbr ≠ none →
      should_crawl d (nbr.remote_capabilities.getD "") none = true) := by
  refine ⟨?_, ?_, ?_⟩
  · intro d capabilities hne
    simp only [should_crawl, if_neg hne, List.any_eq_true, List.mem_map, List.elem_iff]
    constructor
    · rintro ⟨c, ⟨c0, hc0, rfl⟩, hmem⟩
      exact ⟨c0, hc0, hmem⟩
    · rintro ⟨c0, hc0, hmem⟩
      exact ⟨pyUpper c0, ⟨c0, hc0, rfl⟩, hmem⟩
  · intro d
    simp [should_crawl]
  · intro d nbr h
    unfold detect_neighbor_type at h
    simp only [detect_from_cdp, detect_from_lldp] at h
    by_cases hsc : should_crawl d (nbr.remote_capabilities.getD "") none = true
    · exact hsc
    · exfalso
      apply h
      simp only [Bool.not_eq_true] at hsc
      simp [hsc]

/-- C9 witness: the gate characterization instantiated at a concrete
detector and capability string. -/
theorem c9_crawl_gate_ignores_filters_witness :
    should_crawl det1 "Router Switch" none = true ↔
      ∃ c ∈ det1.allowed_capabilities, pyUpper c ∈ capTokens "Router Switch" :=
  c9_crawl_gate_ignores_filters.1 det1 "Router Switch" (by decide)

/-- Preservation of the C4 crawl invariant by one loop iteration. -/
theorem crawlStep_inv (env : Env) (det : Detector) (maxDepth : Nat) (st : CrawlState)
    (h : crawlInv maxDepth st) : crawlInv maxDepth (crawlStep env det maxDepth st) := by
  obtain ⟨hnd, hpol, hfin⟩ := h
  unfold crawlStep
  split
  · exact ⟨hnd, hpol, hfin⟩
  next ip dt depth rest hq =>
    split
    next hgate =>
      -- skipped entry: only the dequeued log grows
      refine ⟨hnd, hpol, ?_⟩
      simp only [Bool.or_eq_true, decide_eq_true_eq] at hgate
      simp only [List.filter_append, List.map_append, List.toFinset_append]
      rcases Nat.lt_or_ge maxDepth depth with hd | hd
      · have : List.filter (fun p => decide (p.2 ≤ maxDepth)) [(ip, depth)] = [] := by
          simp [Nat.not_le.mpr hd]
        simp [this, hfin]
      · have hip : ip ∈ st.visited := by
          rcases hgate with h1 | h1
          · exact h1
          · exact absurd h1 (Nat.not_lt.mpr hd)
        have : List.filter (fun p => decide (p.2 ≤ maxDepth)) [(ip, depth)] = [(ip, depth)] := by
          simp [hd]
        rw [this]
        have hmem : ip ∈ st.visited.toFinset := List.mem_toFinset.mpr hip
        rw [hfin] at hmem
        simp only [List.map_cons, List.map_nil, List.toFinset_cons, List.toFinset_nil]
        rw [hfin]
        ext a
        simp only [Finset.mem_union, Finset.mem_insert, Finset.not_mem_empty]
        constructor
        · intro ha; exact Or.inl ha
        · rintro (ha | ha | ha)
          · exact ha
          · exact ha ▸ hmem
          · exact absurd ha id
    next hgate =>
      -- processed entry: the address joins visited, polled and dequeued
      simp only [Bool.or_eq_true, decide_eq_true_eq, not_or] at hgate
      obtain ⟨hvis, hdep⟩ := hgate
      have hd : depth ≤ maxDepth := Nat.not_lt.mp hdep
      have hnd' : (st.visited ++ [ip]).Nodup :=
        List.Nodup.append hnd (List.nodup_cons.mpr ⟨List.not_mem_nil _, List.nodup_nil⟩)
          (fun a ha hmem => by
            rcases List.mem_singleton.mp hmem with rfl
            exact hvis ha)
      have hpol' : st.polled ++ [ip] = st.visited ++ [ip] := by rw [hpol]
      have hfin' : (st.visited ++ [ip]).toFinset =
          ((List.filter (fun p => decide (p.2 ≤ maxDepth)) (st.dequeued ++ [(ip, depth)])).map
            Prod.fst).toFinset := by
        simp only [List.filter_append, List.map_append, List.toFinset_append]
        have : List.filter (fun p => decide (p.2 ≤ maxDepth)) [(ip, depth)] = [(ip, depth)] := by
          simp [hd]
        rw [this, hfin]
        simp
      split
      · exact ⟨hnd', hpol', hfin'⟩
      · exact ⟨hnd', hpol', hfin'⟩

/-- The C4 crawl invariant holds at every point of the crawl. -/
theorem crawl_inv (env : Env) (det : Detector) (maxDepth : Nat) :
    ∀ (fuel : Nat) (st : CrawlState), crawlInv maxDepth st →
      crawlInv maxDepth (crawl env det maxDepth fuel st)
  | 0, _, h => h
  | fuel + 1, st, h => by
    unfold crawl
    split
    · exact h
    · exact crawl_inv env det maxDepth fuel _ (crawlStep_inv env det maxDepth st h)

/-- C4 (amended): throughout every discovery session each address is
polled at most once, and at every point of the crawl the visited-set size
equals the number of distinct addresses dequeued in entries whose depth
was within the configured maximum (entries dequeued beyond the maximum
are discarded without being marked visited). -/
theorem c4_visited_counts_admissible_dequeues :
    ∀ (env : Env) (det : Detector) (maxDepth fuel : Nat) (seed_ip seed_device_type : String),
      ((crawl env det maxDepth fuel (initState seed_ip seed_device_type)).polled).Nodup
      ∧ (crawl env det maxDepth fuel (initState seed_ip seed_device_type)).visited.length =
          (((crawl env det maxDepth fuel (initState seed_ip seed_device_type)).dequeued.filter
            (fun p => decide (p.2 ≤ maxDepth))).map Prod.fst).toFinset.card := by
  intro env det maxDepth fuel seed_ip seed_device_type
  have h0 : crawlInv maxDepth (initState seed_ip seed_device_type) := by
    refine ⟨List.nodup_nil, rfl, ?_⟩
    simp [initState]
  obtain ⟨hnd, hpol, hfin⟩ := crawl_inv env det maxDepth fuel _ h0
  refine ⟨hpol ▸ hnd, ?_⟩
  rw [← hfin, List.toFinset_card_of_nodup hnd]

/-- C1 (amended): a connection failure is handled identically for every
node, the seed included — the failing address is only logged as visited
and polled and the crawl continues with the rest of the frontier, the
topology untouched; consequently `discover` never fails: it always
returns a topology to its caller. -/
theorem c1_failure_isolation :
    (∀ (env : Env) (det : Detector) (maxDepth : Nat) (st : CrawlState)
      (ip dt : String) (depth : Nat) (rest : List (String × String × Nat))
      (e : DiscoveryError),
      st.queue = (ip, dt, depth) :: rest → env ip dt = Except.error e →
      ip ∉ st.visited → depth ≤ maxDepth →
      crawlStep env det maxDepth st =
        { st with queue := rest, dequeued := st.dequeued ++ [(ip, depth)],
                  visited := st.visited ++ [ip], polled := st.polled ++ [ip] })
    ∧ (∀ (env : Env) (det : Detector) (maxDepth : Nat) (seed_ip seed_device_type : String)
      (fuel : Nat), ∃ t, discover env det maxDepth seed_ip seed_device_type fuel = Except.ok t) := by
  constructor
  · intro env det maxDepth st ip dt depth rest e hq herr hvis hd
    unfold crawlStep
    rw [hq]
    have hgate : (decide (ip ∈ st.visited) || decide (depth > maxDepth)) = false := by
      simp [hvis, Nat.not_lt.mpr hd]
    simp only [hgate, Bool.false_eq_true, if_false, herr]
  · intro env det maxDepth seed_ip seed_device_type fuel
    exact ⟨_, rfl⟩

/-- C1 witness: the isolation equation at the failing seed of `envFail`. -/
theorem c1_failure_isolation_witness :
    crawlStep envFail det1 3 (initState "1.1.1.1" "cisco_ios") =
      { queue := [], visited := ["1.1.1.1"], topology := { devices := [] },
        dequeued := [("1.1.1.1", 0)], polled := ["1.1.1.1"] } :=
  c1_failure_isolation.1 envFail det1 3 (initState "1.1.1.1" "cisco_ios")
    "1.1.1.1" "cisco_ios" 0 []
    { message := "Connection timeout to 1.1.1.1", error_type := "timeout" }
    rfl rfl (by decide) (by decide)

/-- An existing entry survives appending pairs on the right. -/
theorem dictLookup_append_left {κ α : Type} [DecidableEq κ] (m l : List (κ × α)) (k : κ)
    (v : α) (h : dictLookup m k = some v) : dictLookup (m ++ l) k = some v := by
  unfold dictLookup at h ⊢
  obtain ⟨p, hp, hv⟩ := Option.map_eq_some'.mp h
  rw [List.find?_append, hp]
  simpa using hv

/-- Lookup after modifying the values (never the keys) at one key. -/
theorem dictLookup_map_modify {κ α : Type} [DecidableEq κ] (m : List (κ × α)) (a : κ)
    (g : α → α) (k : κ) :
    dictLookup (m.map (fun p => if p.1 = a then (p.1, g p.2) else p)) k =
      (dictLookup m k).map (fun v => if k = a then g v else v) := by
  induction m with
  | nil => rfl
  | cons x xs ih =>
    simp only [List.map_cons]
    unfold dictLookup
    by_cases hx : x.1 = k
    · have hhead : ((if x.1 = a then (x.1, g x.2) else x) : κ × α).1 = k := by
        split <;> simp [hx]
      rw [List.find?_cons_of_pos _ (by simp [hhead]), List.find?_cons_of_pos _ (by simp [hx])]
      by_cases ha : x.1 = a
      · simp [ha, hx ▸ ha, ← hx]
      · have : ¬(k = a) := fun hk => ha (hx.trans hk)
        simp [ha, this]
    · have hhead : ((if x.1 = a then (x.1, g x.2) else x) : κ × α).1 ≠ k := by
        split <;> simp [hx]
      rw [List.find?_cons_of_neg _ (by simp [hhead]), List.find?_cons_of_neg _ (by simp [hx])]
      exact ih

/-- `add_device` never changes an entry that already exists. -/
theorem add_device_preserves (t : Topology) (h0 : String) (ip dt pl : Option String)
    (k : String) (d : Device) (h : dictLookup t.devices k = some d) :
    dictLookup (t.add_device h0 ip dt pl).devices k = some d := by
  unfold Topology.add_device
  split
  · exact h
  · exact dictLookup_append_left _ _ _ _ h

/-- `add_link` can only append to an existing entry's link list; its
identifying fields survive unchanged. -/
theorem add_link_preserves (t : Topology) (l : Link) (k : String) (d : Device)
    (h : dictLookup t.devices k = some d) :
    ∃ d', dictLookup (t.add_link l).devices k = some d' ∧ FieldsEq d' d := by
  have step : ∀ (m : List (String × Device)) (b : Prop) [Decidable b] (x : String × Device),
      dictLookup m k = some d → dictLookup (if b then m else m ++ [x]) k = some d := by
    intro m b hb x hm
    split
    · exact hm
    · exact dictLookup_append_left _ _ _ _ hm
  have modify : ∀ (m : List (String × Device)),
      dictLookup (m.map (fun p =>
        if p.1 = l.local_device then
          (p.1, { hostname := p.2.hostname, mgmt_ip := p.2.mgmt_ip,
                  device_type := p.2.device_type, platform := p.2.platform,
                  links := p.2.links ++ [l] })
        else p)) k =
      (dictLookup m k).map (fun v =>
        if k = l.local_device then
          { hostname := v.hostname, mgmt_ip := v.mgmt_ip, device_type := v.device_type,
            platform := v.platform, links := v.links ++ [l] }
        else v) := fun m =>
    dictLookup_map_modify m l.local_device
      (fun v => { hostname := v.hostname, mgmt_ip := v.mgmt_ip,
                  device_type := v.device_type, platform := v.platform,
                  links := v.links ++ [l] }) k
  simp only [Topology.add_link]
  refine ⟨if k = l.local_device then
      { hostname := d.hostname, mgmt_ip := d.mgmt_ip, device_type := d.device_type,
        platform := d.platform, links := d.links ++ [l] }
    else d, ?_, ?_⟩
  · rw [modify, step _ _ _ (step _ _ _ h)]; rfl
  · split <;> exact ⟨rfl, rfl, rfl⟩

/-- `processNeighbor` preserves the identifying fields of every existing
topology entry. -/
theorem processNeighbor_preserves (det : Detector) (hostname : String) (depth : Nat)
    (visited : List String) (acc : Topology × List (String × String × Nat))
    (nbr : NeighborRecord) (k : String) (d : Device)
    (h : dictLookup acc.1.devices k = some d) :
    ∃ d', dictLookup (processNeighbor det hostname depth visited acc nbr).1.devices k
      = some d' ∧ FieldsEq d' d := by
  simp only [processNeighbor]
  split
  · exact add_link_preserves acc.1 _ k d h
  · exact add_link_preserves acc.1 _ k d h

/-- Field preservation composes along the neighbor fold. -/
theorem foldl_processNeighbor_preserves (det : Detector) (hostname : String) (depth : Nat)
    (visited : List String) :
    ∀ (nbrs : List NeighborRecord) (acc : Topology × List (String × String × Nat))
      (k : String) (d : Device), dictLookup acc.1.devices k = some d →
      ∃ d', dictLookup
          (nbrs.foldl (processNeighbor det hostname depth visited) acc).1.devices k
        = some d' ∧ FieldsEq d' d
  | [], acc, k, d, h => ⟨d, h, rfl, rfl, rfl⟩
  | nbr :: nbrs, acc, k, d, h => by
    obtain ⟨d1, hd1, hfe1⟩ := processNeighbor_preserves det hostname depth visited acc nbr k d h
    obtain ⟨d2, hd2, hfe2⟩ :=
      foldl_processNeighbor_preserves det hostname depth visited nbrs _ k d1 hd1
    exact ⟨d2, hd2, hfe2.1.trans hfe1.1, hfe2.2.1.trans hfe1.2.1, hfe2.2.2.trans hfe1.2.2⟩

/-- One crawl iteration preserves the identifying fields of every device
already registered in the topology. -/
theorem crawlStep_preserves (env : Env) (det : Detector) (maxDepth : Nat) (st : CrawlState)
    (k : String) (d : Device) (h : dictLookup st.topology.devices k = some d) :
    ∃ d', dictLookup (crawlStep env det maxDepth st).topology.devices k = some d'
      ∧ FieldsEq d' d := by
  unfold crawlStep
  split
  · exact ⟨d, h, rfl, rfl, rfl⟩
  next ip dt depth rest hq =>
    split
    · exact ⟨d, h, rfl, rfl, rfl⟩
    · split
      · exact ⟨d, h, rfl, rfl, rfl⟩
      next sess heq =>
        exact foldl_processNeighbor_preserves det _ depth _ _ _ k d
          (add_device_preserves st.topology _ _ _ _ k d h)

/-- C2 (amended): a device entry's identifying fields (management IP,
device type, platform) are immutable once the entry is created — at
creation by a successful poll they hold the polled IP and device-type
hint, at creation as a link endpoint they hold the link's remote IP and
no type; no later poll or link updates them.  Formally: whatever fields an
entry has at any point of the crawl, it still has after any number of
further iterations. -/
theorem c2_fields_set_at_most_once :
    ∀ (env : Env) (det : Detector) (maxDepth fuel : Nat) (st : CrawlState)
      (k : String) (d : Device), dictLookup st.topology.devices k = some d →
      ∃ d', dictLookup (crawl env det maxDepth fuel st).topology.devices k = some d'
        ∧ d'.mgmt_ip = d.mgmt_ip ∧ d'.device_type = d.device_type ∧ d'.platform = d.platform
  | _, _, _, 0, _, _, _, h => ⟨_, h, rfl, rfl, rfl⟩
  | env, det, maxDepth, fuel + 1, st, k, d, h => by
    unfold crawl
    split
    · exact ⟨d, h, rfl, rfl, rfl⟩
    · obtain ⟨d1, hd1, hfe1⟩ := crawlStep_preserves env det maxDepth st k d h
      obtain ⟨d2, hd2, hfe2⟩ :=
        c2_fields_set_at_most_once env det maxDepth fuel (crawlStep env det maxDepth st) k d1 hd1
      exact ⟨d2, hd2, hfe2.1.trans hfe1.1, hfe2.2.1.trans hfe1.2.1, hfe2.2.2.trans hfe1.2.2⟩

/-- C2 witness: the persistence theorem at a concrete state already
holding device `X`, run for two iterations of `env2`. -/
theorem c2_fields_set_at_most_once_witness :
    ∃ d', dictLookup (crawl env2 det1 3 2 stW).topology.devices "X" = some d'
      ∧ d'.mgmt_ip = devX.mgmt_ip ∧ d'.device_type = devX.device_type
      ∧ d'.platform = devX.platform :=
  c2_fields_set_at_most_once env2 det1 3 2 stW "X" devX (by decide)

/-- Keys after a dict assignment: replacement in place keeps them, a new
key is appended. -/
theorem keysOf_dictInsert (m : List (String × NeighborRecord)) (k : String)
    (v : NeighborRecord) :
    keysOf (dictInsert m k v) = if k ∈ keysOf m then keysOf m else keysOf m ++ [k] := by
  unfold dictInsert keysOf
  by_cases hk : k ∈ m.map (fun p => p.1)
  · have hany : m.any (fun p => decide (p.1 = k)) = true := by
      simp only [List.any_eq_true, decide_eq_true_eq]
      obtain ⟨p, hp, hpk⟩ := List.mem_map.mp hk
      exact ⟨p, hp, hpk⟩
    rw [if_pos hany, if_pos hk, List.map_map]
    apply List.map_congr_left
    intro p hp
    simp only [Function.comp_apply]
    split
    next hpk => exact hpk.symm
    next => rfl
  · have hany : m.any (fun p => decide (p.1 = k)) = false := by
      simp only [List.any_eq_false, decide_eq_true_eq]
      intro p hp hpk
      exact hk (List.mem_map.mpr ⟨p, hp, hpk⟩)
    rw [if_neg (by simp [hany]), if_neg hk, List.map_append]
    rfl

/-- Keys accumulated by a merge phase whose step assigns under `recKey`
(skipping empty keys): the fresh keys of the batch are appended in their
original order. -/
theorem keysOf_foldl_insert
    (step : List (String × NeighborRecord) → NeighborRecord → List (String × NeighborRecord))
    (hstep : ∀ m n, recKey n ≠ "" → keysOf (step m n) =
      if recKey n ∈ keysOf m then keysOf m else keysOf m ++ [recKey n]) :
    ∀ (X : List NeighborRecord) (m : List (String × NeighborRecord)),
      (∀ r ∈ X, recKey r ≠ "") → (X.map recKey).Nodup →
      keysOf (X.foldl step m) =
        keysOf m ++ (X.map recKey).filter (fun x => decide (x ∉ keysOf m))
  | [], m, _, _ => by simp
  | n :: X, m, hval, hnd => by
    have hkey : recKey n ≠ "" := hval n (List.mem_cons_self n X)
    rw [List.map_cons] at hnd
    have hnd2 := List.nodup_cons.mp hnd
    rw [List.foldl_cons,
      keysOf_foldl_insert step hstep X (step m n)
        (fun r hr => hval r (List.mem_cons_of_mem n hr)) hnd2.2,
      hstep m n hkey, List.map_cons, List.filter_cons]
    by_cases hmem : recKey n ∈ keysOf m
    · rw [if_pos hmem]
      simp [hmem]
    · rw [if_neg hmem]
      have hfilter : (X.map recKey).filter (fun x => decide (x ∉ keysOf m ++ [recKey n]))
          = (X.map recKey).filter (fun x => decide (x ∉ keysOf m)) := by
        apply List.filter_congr
        intro x hx
        have hxn : x ≠ recKey n := fun he => hnd2.1 (he ▸ hx)
        simp [List.mem_append, hxn]
      rw [hfilter]
      simp [hmem, List.append_assoc]

/-- The CDP phase step satisfies the key law. -/
theorem cdpInsert_keys (m : List (String × NeighborRecord)) (n : NeighborRecord)
    (h : recKey n ≠ "") :
    keysOf (cdpInsert m n) =
      if recKey n ∈ keysOf m then keysOf m else keysOf m ++ [recKey n] := by
  simp only [cdpInsert, if_pos h]
  exact keysOf_dictInsert m (recKey n) _

/-- The LLDP phase step satisfies the key law. -/
theorem lldpInsert_keys (m : List (String × NeighborRecord)) (n : NeighborRecord)
    (h : recKey n ≠ "") :
    keysOf (lldpInsert m n) =
      if recKey n ∈ keysOf m then keysOf m else keysOf m ++ [recKey n] := by
  simp only [lldpInsert, if_neg h]
  cases dictLookup m (recKey n) <;> exact keysOf_dictInsert m (recKey n) _

/-- A batch of key-fresh, key-distinct records appends verbatim in the CDP
phase. -/
theorem foldl_cdpInsert_fresh :
    ∀ (X : List NeighborRecord) (m : List (String × NeighborRecord)),
      (∀ r ∈ X, recKey r ≠ "") → (X.map recKey).Nodup →
      (∀ r ∈ X, recKey r ∉ keysOf m) →
      X.foldl cdpInsert m = m ++ X.map (fun r => (recKey r, { r with protocols := ["CDP"] }))
  | [], m, _, _, _ => by simp
  | n :: X, m, hval, hnd, hfresh => by
    have hkey : recKey n ≠ "" := hval n (List.mem_cons_self n X)
    rw [List.map_cons] at hnd
    have hnd2 := List.nodup_cons.mp hnd
    have hcdp : cdpInsert m n = m ++ [(recKey n, { n with protocols := ["CDP"] })] := by
      simp only [cdpInsert, if_pos hkey]
      unfold dictInsert
      rw [if_neg]
      simp only [List.any_eq_true, decide_eq_true_eq, not_exists]
      intro p hp
      exact hfresh n (List.mem_cons_self n X) (List.mem_map.mpr ⟨p, hp.1, hp.2⟩)
    rw [List.foldl_cons, hcdp,
      foldl_cdpInsert_fresh X _ (fun r hr => hval r (List.mem_cons_of_mem n hr)) hnd2.2
        (fun r hr => by
          intro hmem
          unfold keysOf at hmem
          rw [List.map_append] at hmem
          rcases List.mem_append.mp hmem with hmem | hmem
          · exact hfresh r (List.mem_cons_of_mem n hr) hmem
          · simp only [List.map_cons, List.map_nil, List.mem_singleton] at hmem
            exact hnd2.1 (hmem ▸ List.mem_map_of_mem recKey hr)),
      List.append_assoc]
    rfl

/-- C3 (amended): the merge law, restricted as the key dropping and
deduplication of the merger force.  `merge([], []) = []`; `merge(X, [])`
reproduces `X` with every protocol tag set to exactly {CDP} when each of
`X`'s records has a non-empty key and the keys are pairwise distinct
(keyless records are dropped, duplicate keys collapse); merging one
A-record and one B-record with the same non-empty key yields exactly one
record whose non-protocol fields favor A — B backfills only absent
remote-IP, remote-interface and local-interface fields — except the
description, which takes B's whenever B's is non-empty; and for key-valid,
duplicate-free inputs the result's keys are the A keys in their original
order followed by the B-only keys in their original order. -/
theorem c3_merge_law :
    (merge_neighbor_info [] [] = [])
    ∧ (∀ X : List NeighborRecord, (∀ r ∈ X, recKey r ≠ "") → (X.map recKey).Nodup →
        merge_neighbor_info X [] = X.map (fun r => { r with protocols := ["CDP"] }))
    ∧ (∀ a b : NeighborRecord, recKey a ≠ "" → recKey b = recKey a →
        merge_neighbor_info [a] [b] =
          [{ remote_device := a.remote_device,
             remote_ip := backfill a.remote_ip b.remote_ip,
             remote_platform := a.remote_platform,
             remote_capabilities := a.remote_capabilities,
             system_description := if pyTruthy b.system_description then b.system_description
               else a.system_description,
             local_intf := backfill a.local_intf b.local_intf,
             remote_intf := backfill a.remote_intf b.remote_intf,
             protocols := ["CDP", "LLDP"] }])
    ∧ (∀ A B : List NeighborRecord, (∀ r ∈ A, recKey r ≠ "") → (A.map recKey).Nodup →
        (∀ r ∈ B, recKey r ≠ "") → (B.map recKey).Nodup →
        keysOf (merge_map A B) =
          A.map recKey ++ (B.map recKey).filter (fun k => decide (k ∉ A.map recKey))) := by
  refine ⟨rfl, ?_, ?_, ?_⟩
  · intro X hval hnd
    unfold merge_neighbor_info merge_map
    rw [List.foldl_nil, foldl_cdpInsert_fresh X [] hval hnd (fun r _ => List.not_mem_nil _),
      List.nil_append, List.map_map]
    rfl
  · intro a b ha hb
    unfold merge_neighbor_info merge_map
    rw [List.foldl_cons, List.foldl_nil, List.foldl_cons, List.foldl_nil]
    have h1 : cdpInsert [] a = [(recKey a, { a with protocols := ["CDP"] })] := by
      simp [cdpInsert, dictInsert, if_pos ha]
    rw [h1]
    simp only [lldpInsert, hb, if_neg ha]
    have h2 : dictLookup [(recKey a, { a with protocols := ["CDP"] })] (recKey a)
        = some { a with protocols := ["CDP"] } := by
      simp [dictLookup]
    rw [h2]
    have h3 : ∀ v, dictInsert [(recKey a, { a with protocols := ["CDP"] })] (recKey a) v
        = [(recKey a, v)] := by
      intro v
      simp [dictInsert]
    dsimp only
    simp only [lldpMergeRecord]
    by_cases hdesc : pyTruthy b.system_description = true
    · rw [if_pos hdesc, h3]
      simp only [if_pos hdesc]
      rfl
    · rw [if_neg hdesc, h3]
      simp only [if_neg hdesc]
      rfl
  · intro A B hA hAnd hB hBnd
    unfold merge_map
    rw [keysOf_foldl_insert lldpInsert lldpInsert_keys B _ hB hBnd,
      keysOf_foldl_insert cdpInsert cdpInsert_keys A [] hA hAnd]
    have h0 : keysOf ([] : List (String × NeighborRecord)) = [] := rfl
    rw [h0, List.nil_append]
    have : (A.map recKey).filter (fun x => decide (x ∉ ([] : List String))) = A.map recKey := by
      simp
    rw [this]

/-- C3 witness: the pair law at the concrete records `recA`, `recB`. -/
theorem c3_merge_law_witness :
    merge_neighbor_info [recA] [recB] =
      [{ remote_device := recA.remote_device,
         remote_ip := backfill recA.remote_ip recB.remote_ip,
         remote_platform := recA.remote_platform,
         remote_capabilities := recA.remote_capabilities,
         system_description := if pyTruthy recB.system_description then recB.system_description
           else recA.system_description,
         local_intf := backfill recA.local_intf recB.local_intf,
         remote_intf := backfill recA.remote_intf recB.remote_intf,
         protocols := ["CDP", "LLDP"] }] :=
  c3_merge_law.2.2.1 recA recB (by decide) (by decide)

/-- `find?` only depends on the predicate's values on the list. -/
theorem find?_congr {α : Type} (p q : α → Bool) :
    ∀ l : List α, (∀ a ∈ l, p a = q a) → l.find? p = l.find? q
  | [], _ => rfl
  | a :: l, h => by
    rw [List.find?_cons, List.find?_cons, h a (List.mem_cons_self a l)]
    cases q a
    · exact find?_congr p q l (fun x hx => h x (List.mem_cons_of_mem a hx))
    · rfl

/-- Head-case evaluation of `find?` with a false head. -/
theorem find?_cons_neg {α : Type} (p : α → Bool) (a : α) (l : List α) (h : p a = false) :
    (a :: l).find? p = l.find? p := by
  rw [List.find?_cons, h]

/-- Head-case evaluation of `find?` with a true head. -/
theorem find?_cons_pos {α : Type} (p : α → Bool) (a : α) (l : List α) (h : p a = true) :
    (a :: l).find? p = some a := by
  rw [List.find?_cons, h]

/-- The accumulator of the best-match fold stays `some` and agrees with
the accumulator-carrying maximum fold. -/
theorem foldl_best_some :
    ∀ (l : List (String × ℚ)) (b : String × ℚ),
      l.foldl (fun best m => match best with
        | none => some m
        | some b' => if m.2 > b'.2 then some m else some b') (some b) =
      some (l.foldl (fun b' m => if m.2 > b'.2 then m else b') b)
  | [], _ => rfl
  | m :: l, b => by
    simp only [List.foldl_cons]
    by_cases h : m.2 > b.2 <;> simp only [h, if_true, if_false, ite_true, ite_false] <;>
      exact foldl_best_some l _

/-- The carried maximum of a left fold is the first element of the list
(accumulator in front) whose score dominates the whole list: the head of
a stable descending sort. -/
theorem foldl_max_eq_find :
    ∀ (l : List (String × ℚ)) (x : String × ℚ),
      some (l.foldl (fun b m => if m.2 > b.2 then m else b) x) =
      (x :: l).find? (fun q => decide (∀ r ∈ x :: l, r.2 ≤ q.2))
  | [], x => by
    rw [List.foldl_nil,
      find?_cons_pos (fun q => decide (∀ r ∈ [x], r.2 ≤ q.2)) x [] (by simp)]
  | y :: l, x => by
    rw [List.foldl_cons]
    by_cases hy : y.2 > x.2
    · rw [if_pos hy, foldl_max_eq_find l y]
      have hx : (fun q => decide (∀ r ∈ x :: y :: l, r.2 ≤ q.2)) x = false := by
        simp only [decide_eq_false_iff_not]
        intro hall
        exact absurd (hall y (by simp)) (not_le.mpr hy)
      rw [find?_cons_neg (fun q => decide (∀ r ∈ x :: y :: l, r.2 ≤ q.2)) x (y :: l) hx]
      apply find?_congr
      intro q hq
      apply decide_eq_decide.mpr
      constructor
      · intro h2 r hr
        rcases List.mem_cons.mp hr with hrx | hr2
        · rw [hrx]
          exact le_trans (le_of_lt hy) (h2 y (by simp))
        · exact h2 r hr2
      · intro h2 r hr
        exact h2 r (List.mem_cons_of_mem x hr)
    · rw [if_neg hy, foldl_max_eq_find l x]
      have hyx : y.2 ≤ x.2 := not_lt.mp hy
      by_cases hx : ∀ r ∈ x :: y :: l, r.2 ≤ x.2
      · have hx2 : ∀ r ∈ x :: l, r.2 ≤ x.2 := by
          intro r hr
          rcases List.mem_cons.mp hr with hrx | hr2
          · rw [hrx]
          · exact hx r (by simp [hr2])
        rw [find?_cons_pos (fun q => decide (∀ r ∈ x :: l, r.2 ≤ q.2)) x l (by simpa using hx2),
          find?_cons_pos (fun q => decide (∀ r ∈ x :: y :: l, r.2 ≤ q.2)) x (y :: l) (by simpa using hx)]
      · have hxf : ¬ ∀ r ∈ x :: l, r.2 ≤ x.2 := by
          intro hall
          apply hx
          intro r hr
          rcases List.mem_cons.mp hr with hrx | hr2
          · rw [hrx]
          · rcases List.mem_cons.mp hr2 with hry | hr3
            · rw [hry]
              exact hyx
            · exact hall r (by simp [hr3])
        have hyf : ¬ ∀ r ∈ x :: y :: l, r.2 ≤ y.2 := by
          intro hall
          apply hx
          intro r hr
          exact le_trans (hall r hr) hyx
        rw [find?_cons_neg (fun q => decide (∀ r ∈ x :: l, r.2 ≤ q.2)) x l
            (by simp only [decide_eq_false_iff_not]; exact hxf),
          find?_cons_neg (fun q => decide (∀ r ∈ x :: y :: l, r.2 ≤ q.2)) x (y :: l)
            (by simp only [decide_eq_false_iff_not]; exact hx),
          find?_cons_neg (fun q => decide (∀ r ∈ x :: y :: l, r.2 ≤ q.2)) y l
            (by simp only [decide_eq_false_iff_not]; exact hyf)]
        apply find?_congr
        intro q hq
        apply decide_eq_decide.mpr
        constructor
        · intro h1 r hr
          rcases List.mem_cons.mp hr with hrx | hr2
          · rw [hrx]
            exact h1 x (by simp)
          · rcases List.mem_cons.mp hr2 with hry | hr3
            · rw [hry]
              exact le_trans hyx (h1 x (by simp))
            · exact h1 r (by simp [hr3])
        · intro h1 r hr
          rcases List.mem_cons.mp hr with hrx | hr2
          · rw [hrx]
            exact h1 x (by simp)
          · exact h1 r (by simp [hr2])

/-- The source's best-match fold over any score list equals the first
entry whose score dominates the list. -/
theorem foldl_best_eq_find :
    ∀ l : List (String × ℚ),
      l.foldl (fun best m => match best with
        | none => some m
        | some b => if m.2 > b.2 then some m else some b) none =
      l.find? (fun q => decide (∀ r ∈ l, r.2 ≤ q.2))
  | [] => rfl
  | x :: l => by
    rw [List.foldl_cons]
    exact (foldl_best_some l x).trans (foldl_max_eq_find l x)

/-- The source's match accumulation is the ordered, positively-scored
sublist of the profile list. -/
theorem foldl_matches_eq (pl dl : String) :
    ∀ (l : List Profile) (acc : List (String × ℚ)),
      l.foldl (fun acc p =>
        if profileScore pl dl p > 0 then acc ++ [(p.name, profileScore pl dl p)] else acc) acc =
      acc ++ (l.map (fun p => (p.name, profileScore pl dl p))).filter (fun q => q.2 > 0)
  | [], acc => by simp
  | p :: l, acc => by
    rw [List.foldl_cons, foldl_matches_eq pl dl l]
    by_cases hp : profileScore pl dl p > 0
    · simp [hp]
    · simp [hp]

/-- C6: pattern scoring adds a profile's full priority weight on a
case-insensitive platform-substring hit (once per profile), half the
weight on a description-substring hit (once), excludes zero scores, and
returns the highest-scoring profile with ties resolved in favor of the
first-declared profile, falling back to the configured default when no
profile scores positively — i.e. the source's sort-based selection equals
the specification's first-dominating-score selection. -/
theorem c6_match_patterns_refines_spec :
    ∀ (d : Detector) (platform system_desc : String),
      match_patterns d platform system_desc = match_patterns_spec d platform system_desc := by
  intro d platform system_desc
  simp only [match_patterns, match_patterns_spec]
  rw [foldl_matches_eq, List.nil_append, foldl_best_eq_find]

end NeighborMapper
